import Mathlib

/-!
# pcbook: rating store, laptop handlers and image upload

A shallow embedding of `service/rating_store.go`, `service/image_store.go`,
`service/laptop_server.go` and `service/laptop_service.go`.

Conventions of the embedding:
* Go maps are total functions into `Option`; a pointer stored in a map is the
  value it points to at the moment of the observation.
* `uint32` fields are naturals reduced modulo `2 ^ 32` at every write.
* `float64` scores are values of an arbitrary type `F` with an arbitrary
  binary operation `fadd` standing for the machine addition, so nothing is
  assumed of floating-point arithmetic.
* A Go `error` result is `Option _` (`none` is `nil`); a `(value, error)`
  pair is `Except _ _` where the code reads the value only on a nil error.
* gRPC status errors keep their code, their format string and the rendered
  arguments, unformatted.
-/

namespace pcbook

/-! ## Errors and statuses -/

/-- Go `error` values that the service handles: the sentinels `io.EOF` and
`ErrAlreadyExists`, freshly created errors, and errors wrapping another one. -/
inductive GoError where
  | EOF
  | ErrAlreadyExists
  | new (msg : String)
  | wrap (msg : String) (inner : GoError)
  deriving DecidableEq, Repr

/-- `errors.Is(err, target)`: `err` or an error in its unwrap chain is `target`. -/
def errorsIs : GoError → GoError → Bool
  | GoError.wrap m inner, target =>
      decide (GoError.wrap m inner = target) || errorsIs inner target
  | e, target => decide (e = target)

/-- gRPC status codes (`google.golang.org/grpc/codes`). -/
inductive Code where
  | OK | Canceled | Unknown | InvalidArgument | DeadlineExceeded | NotFound
  | AlreadyExists | PermissionDenied | ResourceExhausted | FailedPrecondition
  | Aborted | OutOfRange | Unimplemented | Internal | Unavailable | DataLoss
  | Unauthenticated
  deriving DecidableEq, Repr

/-- A status error: its code, the format string and the arguments given to it. -/
structure Status where
  code : Code
  format : String
  args : List String
  deriving DecidableEq, Repr

/-- `status.Error(code, msg)`. -/
def statusError (c : Code) (msg : String) : Status := ⟨c, msg, []⟩

/-- `status.Errorf(code, format, args...)`. -/
def statusErrorf (c : Code) (format : String) (args : List String) : Status :=
  ⟨c, format, args⟩

/-- `err.Error()`: the text of an error. -/
def GoError.text : GoError → String
  | GoError.EOF => "EOF"
  | GoError.ErrAlreadyExists => "record already exists"
  | GoError.new m => m
  | GoError.wrap m inner => m ++ ": " ++ inner.text

/-- `ctx.Err()`: nil, `context.Canceled`, `context.DeadlineExceeded`, or (for a
context type of another package) some other error. -/
inductive CtxErr where
  | none
  | Canceled
  | DeadlineExceeded
  | other (msg : String)
  deriving DecidableEq, Repr

/-- `maxImageSize = 1 << 20`. -/
def maxImageSize : Nat := 1 <<< 20

/-- `contextErr` of `laptop_server.go`. -/
def contextErr (ctxErr : CtxErr) : Option Status :=
  match ctxErr with
  | CtxErr.Canceled => some (statusError Code.Canceled "request is cancleled")
  | CtxErr.DeadlineExceeded => some (statusError Code.Canceled "deadline is exceeded")
  | _ => none

/-- `logErr`: logs and returns its argument. -/
def logErr (err : Option Status) : Option Status := err

/-! ## Rating store (`rating_store.go`) -/

/-- `Rating`: `Count` is a `uint32`, `Sum` a `float64` (a value of `F`). -/
structure Rating (F : Type) where
  Count : Nat
  Sum : F
  deriving DecidableEq, Repr

/-- `InMemoryRatingStore`: the map `rating` (the mutex has no sequential effect). -/
structure InMemoryRatingStore (F : Type) where
  rating : String → Option (Rating F)

/-- `NewInMemoryRatingStore`: an empty map. -/
def NewInMemoryRatingStore (F : Type) : InMemoryRatingStore F :=
  ⟨fun _ => none⟩

/-- `InMemoryRatingStore.Add`: the returned `(*Rating, error)` and the store after
the call. -/
def InMemoryRatingStore.Add {F : Type} (fadd : F → F → F)
    (store : InMemoryRatingStore F) (laptopId : String) (score : F) :
    (Rating F × Option GoError) × InMemoryRatingStore F :=
  let rating : Rating F :=
    match store.rating laptopId with
    | none => { Count := 1, Sum := score }
    | some r => { Count := (r.Count + 1) % 2 ^ 32, Sum := fadd r.Sum score }
  ((rating, none),
   { rating := fun k => if k = laptopId then some rating else store.rating k })

/-- A sequence of `Add` calls, in order: what each call returned, and the store
after the last one. -/
def addCalls {F : Type} (fadd : F → F → F) :
    InMemoryRatingStore F → List (String × F) →
    List (Rating F × Option GoError) × InMemoryRatingStore F
  | store, [] => ([], store)
  | store, (laptopId, score) :: calls =>
      let r := store.Add fadd laptopId score
      let rs := addCalls fadd r.2 calls
      (r.1 :: rs.1, rs.2)

/-- The scores that a list of calls submits for `laptopId`, in order. -/
def scoresFor {F : Type} (laptopId : String) (calls : List (String × F)) : List F :=
  (calls.filter (fun c => decide (c.1 = laptopId))).map Prod.snd

/-- The running total of a non-empty sequence of scores, added left to right. -/
def runningTotal {F : Type} (fadd : F → F → F) : List F → Option F
  | [] => none
  | s :: rest => some (rest.foldl fadd s)

/-! ## Messages (`pb`) -/

/-- `pb.Laptop`: the id and the remaining fields, kept as a value of `A`. -/
structure Laptop (A : Type) where
  Id : String
  attrs : A
  deriving DecidableEq, Repr

/-- `pb.CreateLaptopRequest`: the `Laptop` field is a pointer and may be nil. -/
structure CreateLaptopRequest (A : Type) where
  Laptop : Option (Laptop A)

/-- `req.GetLaptop()`. -/
def CreateLaptopRequest.GetLaptop {A : Type} (req : CreateLaptopRequest A) :
    Option (pcbook.Laptop A) :=
  req.Laptop

/-- `pb.CreateLaptopResponse`. -/
structure CreateLaptopResponse where
  Id : String
  deriving DecidableEq, Repr

/-- `pb.SearchLaptopRequest`: the `Filter` field is a pointer and may be nil. -/
structure SearchLaptopRequest (Flt : Type) where
  Filter : Option Flt

/-- `req.GetFilter()`. -/
def SearchLaptopRequest.GetFilter {Flt : Type} (req : SearchLaptopRequest Flt) :
    Option Flt :=
  req.Filter

/-- `pb.SearchLaptopResponse`. -/
structure SearchLaptopResponse (A : Type) where
  Laptop : Laptop A

/-- `pb.ImageInfo`, the metadata of an upload. -/
structure UploadInfo where
  LaptopId : String
  ImageType : String
  deriving DecidableEq, Repr

/-- `pb.UploadImageRequest`: the oneof `Data` holds an info, a chunk, or nothing. -/
inductive UploadImageRequest where
  | Info (info : UploadInfo)
  | ChunkData (data : List UInt8)
  | unset
  deriving DecidableEq

/-- `req.GetInfo()`: nil unless the oneof holds an info. -/
def UploadImageRequest.GetInfo : UploadImageRequest → Option UploadInfo
  | UploadImageRequest.Info info => some info
  | _ => none

/-- `info.GetLaptopId()` on a possibly nil info. -/
def UploadInfo.GetLaptopId : Option UploadInfo → String
  | some info => info.LaptopId
  | none => ""

/-- `info.GetImageType()` on a possibly nil info. -/
def UploadInfo.GetImageType : Option UploadInfo → String
  | some info => info.ImageType
  | none => ""

/-- `req.GetChunkData()`: nil (no bytes) unless the oneof holds a chunk. -/
def UploadImageRequest.GetChunkData : UploadImageRequest → List UInt8
  | UploadImageRequest.ChunkData data => data
  | _ => []

/-- `pb.UploadImageResponse`: `Size` is a `uint32`. -/
structure UploadImageResponse where
  Id : String
  Size : Nat
  deriving DecidableEq, Repr

/-! ## Collaborators -/

/-- The `github.com/google/uuid` calls: `Parse(s)` as the error it returns, and
`NewRandom()` as its error or the `String()` of the id it returns. -/
structure UUID where
  Parse : String → Option GoError
  NewRandom : Except GoError String

/-- The `LaptopStore` interface over a store state `σ`. `Save` gets the laptop by
value: the store copies what it keeps and leaves the argument as it is. -/
structure LaptopStore (σ A Flt : Type) where
  Save : σ → Laptop A → Option GoError × σ
  Find : σ → String → Option (Laptop A) × Option GoError
  Search : σ → CtxErr → Option Flt → (Laptop A → Option GoError) → Option GoError

/-- The `ImageStore` interface over a store state `ι`. -/
structure ImageStore (ι : Type) where
  Save : ι → String → String → List UInt8 → Except GoError String × ι

/-- What a unary handler does: it returns a response, returns an error, or
panics on a nil dereference. -/
inductive Reply (R : Type) where
  | ok (res : R)
  | error (err : Status)
  | panic
  deriving DecidableEq, Repr

/-- The observable result of `CreateLaptop`: its reply, the store afterwards, and
the arguments of the calls it made to the store's `Save`. -/
structure CreateLaptopResult (σ A : Type) where
  reply : Reply CreateLaptopResponse
  store : σ
  saveCalls : List (Laptop A)

/-- The last part of `CreateLaptop`, the same in both files but for the verb
(`%v` or `%w`) of the format string: save, map the error, answer. -/
def saveLaptop {σ A Flt : Type} (verb : String) (laptopStore : LaptopStore σ A Flt)
    (st : σ) (laptop : Laptop A) : CreateLaptopResult σ A :=
  let r := laptopStore.Save st laptop
  match r.1 with
  | some err =>
      let code := if errorsIs err GoError.ErrAlreadyExists then Code.AlreadyExists
                  else Code.Internal
      ⟨Reply.error (statusErrorf code ("cannot save laptop to the store: " ++ verb) [err.text]),
       r.2, [laptop]⟩
  | none => ⟨Reply.ok ⟨laptop.Id⟩, r.2, [laptop]⟩

/-- The first part of `CreateLaptop`, the same in both files but for the verb
(`%v` or `%w`) of the format strings: a non-empty id must parse as a UUID, an
empty id is replaced by a new random one. -/
def settleId {A : Type} (verb : String) (uuid : UUID) (laptop : Laptop A) :
    Except Status (Laptop A) :=
  if laptop.Id.length > 0 then
    match uuid.Parse laptop.Id with
    | some err =>
        Except.error
          (statusErrorf Code.InvalidArgument ("laptop id isn\x27t a valid UUID: " ++ verb)
            [err.text])
    | none => Except.ok laptop
  else
    match uuid.NewRandom with
    | Except.error err =>
        Except.error
          (statusErrorf Code.Internal ("cannot generate new laptop ID: " ++ verb) [err.text])
    | Except.ok id => Except.ok { laptop with Id := id }

namespace laptop_service

/-- `LaptopServer.CreateLaptop` of `laptop_service.go`. The context is not read. -/
def CreateLaptop {σ A Flt : Type} (uuid : UUID) (Store : LaptopStore σ A Flt) (st : σ)
    (_ctx : CtxErr) (req : CreateLaptopRequest A) : CreateLaptopResult σ A :=
  match req.GetLaptop with
  | none => ⟨Reply.panic, st, []⟩
  | some laptop =>
      match settleId "%w" uuid laptop with
      | Except.error err => ⟨Reply.error err, st, []⟩
      | Except.ok laptop => saveLaptop "%w" Store st laptop

end laptop_service

namespace laptop_server

/-- `LaptopServer.CreateLaptop` of `laptop_server.go`. `ctx` is `ctx.Err()` at the
check that precedes the save. -/
def CreateLaptop {σ A Flt : Type} (uuid : UUID) (laptopStore : LaptopStore σ A Flt)
    (st : σ) (ctx : CtxErr) (req : CreateLaptopRequest A) : CreateLaptopResult σ A :=
  match req.GetLaptop with
  | none => ⟨Reply.panic, st, []⟩
  | some laptop =>
      match settleId "%v" uuid laptop with
      | Except.error err => ⟨Reply.error err, st, []⟩
      | Except.ok laptop =>
          match contextErr ctx with
          | some err => ⟨Reply.error err, st, []⟩
          | none => saveLaptop "%v" laptopStore st laptop

end laptop_server

/-! ## `SearchLaptop` -/

/-- The server side of a `SearchLaptop` stream: `stream.Context().Err()` and what
`stream.Send` answers to a response. -/
structure SearchLaptopStream (A : Type) where
  Context : CtxErr
  Send : SearchLaptopResponse A → Option GoError

/-- `LaptopServer.SearchLaptop`: the error it returns (`none` is nil). -/
def SearchLaptop {σ A Flt : Type} (laptopStore : LaptopStore σ A Flt) (st : σ)
    (req : SearchLaptopRequest Flt) (stream : SearchLaptopStream A) : Option Status :=
  let filter := req.GetFilter
  let err := laptopStore.Search st stream.Context filter (fun laptop =>
    let res : SearchLaptopResponse A := ⟨laptop⟩
    match stream.Send res with
    | some err => some err
    | none => none)
  match err with
  | some err => some (statusErrorf Code.Internal "unexpected error: %v" [err.text])
  | none => none

/-! ## `UploadImage` -/

/-- The client side of an `UploadImage` stream, as the handler meets it: the
result of the first `stream.Recv()`; then, for each turn of the loop,
`stream.Context().Err()` at the head of the turn and the result of the
`stream.Recv()` that follows; and what `stream.SendAndClose` answers. The script
of turns is finite: a handler that has used it up is waiting in `Recv`. -/
structure UploadImageStream where
  first : Except GoError UploadImageRequest
  turns : List (CtxErr × Except GoError UploadImageRequest)
  SendAndClose : UploadImageResponse → Option GoError

/-- How the receiving loop of `UploadImage` ends, with the number of `Recv` calls
made so far: it waits for input, it returns an error, or it breaks at `io.EOF`
with the buffer and the size it has accumulated. -/
inductive LoopExit where
  | waiting (recvCalls : Nat)
  | abort (err : Status) (recvCalls : Nat)
  | done (imageData : List UInt8) (imageSize : Nat) (recvCalls : Nat)
  deriving DecidableEq

/-- The `for` loop of `UploadImage`, from the state `imageData`, `imageSize`. The
branch on the error of `imageData.Write(chunk)` is left out: `bytes.Buffer.Write`
always returns a nil error. -/
def uploadLoop (imageData : List UInt8) (imageSize : Nat) (recvCalls : Nat) :
    List (CtxErr × Except GoError UploadImageRequest) → LoopExit
  | [] => LoopExit.waiting recvCalls
  | (ctx, recv) :: turns =>
      match contextErr ctx with
      | some err => LoopExit.abort err recvCalls
      | none =>
          match recv with
          | Except.error err =>
              if err = GoError.EOF then LoopExit.done imageData imageSize (recvCalls + 1)
              else
                LoopExit.abort
                  (statusErrorf Code.Unknown "cannot receive chunk data: %v" [err.text])
                  (recvCalls + 1)
          | Except.ok req =>
              let chunk := req.GetChunkData
              let size := chunk.length
              let imageSize := imageSize + size
              if imageSize > maxImageSize then
                LoopExit.abort
                  (statusErrorf Code.InvalidArgument "image is too large: %d > %d"
                    [toString imageSize, toString maxImageSize])
                  (recvCalls + 1)
              else uploadLoop (imageData ++ chunk) imageSize (recvCalls + 1) turns

/-- What `UploadImage` has done when it returns or waits: `ret` is `none` while it
waits in `Recv` and `some err` once it has returned `err` (`some none` is a nil
error); then the number of `Recv` calls, the arguments of the calls to the image
store `Save`, the responses handed to `SendAndClose`, and the image store. -/
structure UploadImageResult (ι : Type) where
  ret : Option (Option Status)
  recvCalls : Nat
  saveCalls : List (String × String × List UInt8)
  sendCalls : List UploadImageResponse
  imageStore : ι

/-- `LaptopServer.UploadImage`. -/
def UploadImage {σ A Flt ι : Type} (laptopStore : LaptopStore σ A Flt) (st : σ)
    (imageStore : ImageStore ι) (images : ι) (stream : UploadImageStream) :
    UploadImageResult ι :=
  match stream.first with
  | Except.error _ =>
      ⟨some (logErr (some (statusError Code.Unknown "cannot receive image info"))),
       1, [], [], images⟩
  | Except.ok req =>
      let laptopId := UploadInfo.GetLaptopId req.GetInfo
      let imageType := UploadInfo.GetImageType req.GetInfo
      let found := laptopStore.Find st laptopId
      match found.2 with
      | some err =>
          ⟨some (logErr (some (statusErrorf Code.Internal "cannot find laptop %v" [err.text]))),
           1, [], [], images⟩
      | none =>
          match found.1 with
          | none =>
              ⟨some (logErr (some (statusErrorf Code.InvalidArgument
                  "laptop $s doesnt exist %v" [laptopId]))),
               1, [], [], images⟩
          | some _ =>
              match uploadLoop [] 0 1 stream.turns with
              | LoopExit.waiting n => ⟨none, n, [], [], images⟩
              | LoopExit.abort err n => ⟨some (some err), n, [], [], images⟩
              | LoopExit.done imageData imageSize n =>
                  let saved := imageStore.Save images laptopId imageType imageData
                  match saved.1 with
                  | Except.error err =>
                      ⟨some (logErr (some (statusErrorf Code.Internal
                          "cannot save image to the store: %v" [err.text]))),
                       n, [(laptopId, imageType, imageData)], [], saved.2⟩
                  | Except.ok imageID =>
                      let res : UploadImageResponse :=
                        { Id := imageID, Size := imageSize % 2 ^ 32 }
                      match stream.SendAndClose res with
                      | some err =>
                          ⟨some (logErr (some (statusErrorf Code.Unknown
                              "cannot send response: %v" [err.text]))),
                           n, [(laptopId, imageType, imageData)], [res], saved.2⟩
                      | none =>
                          ⟨some none, n, [(laptopId, imageType, imageData)], [res], saved.2⟩

/-! ## Disk image store (`image_store.go`) -/

/-- `ImageInfo` of `image_store.go` (the field `Type` is `Type_` here). -/
structure ImageInfo where
  LaptopId : String
  Type_ : String
  PAth : String
  deriving DecidableEq, Repr

/-- `DiskImageStore`: the folder and the map `images`. -/
structure DiskImageStore where
  imageFolder : String
  images : String → Option ImageInfo

/-- `NewDiskImageStore`. -/
def NewDiskImageStore (imageFolder : String) : DiskImageStore :=
  { imageFolder := imageFolder, images := fun _ => none }

/-- What the outside answers during one `DiskImageStore.Save`: `uuid.NewRandom()`
(its error, or the `String()` of the id), `os.Create(path)` and
`imageData.WriteTo(file)` (their errors). -/
structure Disk where
  NewRandom : Except GoError String
  Create : String → Option GoError
  WriteTo : String → List UInt8 → Option GoError

/-- `DiskImageStore.Save`. -/
def DiskImageStore.Save (disk : Disk) (store : DiskImageStore) (laptopID : String)
    (imageType : String) (imageData : List UInt8) : Except GoError String × DiskImageStore :=
  match disk.NewRandom with
  | Except.error err =>
      (Except.error (GoError.new ("cannot generate image id: " ++ err.text)), store)
  | Except.ok imageId =>
      let imagePath := store.imageFolder ++ "/" ++ imageId ++ imageType
      match disk.Create imagePath with
      | some err =>
          (Except.error (GoError.new ("cannot create image file: " ++ err.text)), store)
      | none =>
          match disk.WriteTo imagePath imageData with
          | some err =>
              (Except.error (GoError.new ("cannot write image to the file: " ++ err.text)),
               store)
          | none =>
              (Except.ok imageId,
               { store with
                 images := fun k =>
                   if k = imageId then
                     some { LaptopId := laptopID, Type_ := imageType, PAth := imagePath }
                   else store.images k })

/-- `DiskImageStore` as an `ImageStore`. -/
def diskImageStore (disk : Disk) : ImageStore DiskImageStore :=
  { Save := DiskImageStore.Save disk }

/-! ## Catalog store -/

/-- Modelled from the spec: the state of `InMemoryLaptopStore`, whose file
`laptop_store.go` is not among the sources: the stored laptops, in the order of
their insertion. -/
structure InMemoryLaptopStore (A : Type) where
  data : List (Laptop A)

/-- Modelled from the spec: `NewInMemoryLaptopStore`, a store that holds nothing. -/
def NewInMemoryLaptopStore (A : Type) : InMemoryLaptopStore A := ⟨[]⟩

/-- Modelled from the spec: `InMemoryLaptopStore.Find` ("returns a deep copy of the
stored entity, or a not-found signal (not an error) if absent"). -/
def InMemoryLaptopStore.Find {A : Type} (store : InMemoryLaptopStore A) (id : String) :
    Option (Laptop A) × Option GoError :=
  (store.data.find? (fun l => decide (l.Id = id)), none)

/-- Modelled from the spec: `InMemoryLaptopStore.Save` ("if entity.id is non-empty it
must pass identifier-validity checking; on failure, InvalidIdentifier. If empty, a
new unique id is generated and assigned. If the id already exists in the store,
AlreadyExists. On success, a deep copy of the entity is inserted"), with the
validity check and the generated id given from outside. -/
def InMemoryLaptopStore.Save {A : Type} (isValidId : String → Bool) (newUniqueId : String)
    (store : InMemoryLaptopStore A) (laptop : Laptop A) :
    Option GoError × InMemoryLaptopStore A :=
  if laptop.Id ≠ "" ∧ isValidId laptop.Id = false then
    (some (GoError.new "InvalidIdentifier"), store)
  else
    let id := if laptop.Id = "" then newUniqueId else laptop.Id
    match (store.Find id).1 with
    | some _ => (some GoError.ErrAlreadyExists, store)
    | none => (none, ⟨store.data ++ [{ laptop with Id := id }]⟩)

/-- Modelled from the spec: the iteration of `InMemoryLaptopStore.Search` ("for every
match invokes onMatch with a deep copy. Iteration stops immediately, propagating
the error, if onMatch returns an error or if the call's cancellation signal fires
between entities"), with the filter predicate given from outside. -/
def searchLoop {A : Type} (ctx : CtxErr) (isQualified : Laptop A → Bool)
    (found : Laptop A → Option GoError) : List (Laptop A) → Option GoError
  | [] => none
  | laptop :: rest =>
      if ctx = CtxErr.Canceled ∨ ctx = CtxErr.DeadlineExceeded then
        some (GoError.new "context is cancelled")
      else if isQualified laptop then
        match found laptop with
        | some err => some err
        | none => searchLoop ctx isQualified found rest
      else searchLoop ctx isQualified found rest

/-- Modelled from the spec: `InMemoryLaptopStore.Search`. -/
def InMemoryLaptopStore.Search {A Flt : Type} (isQualified : Option Flt → Laptop A → Bool)
    (store : InMemoryLaptopStore A) (ctx : CtxErr) (filter : Option Flt)
    (found : Laptop A → Option GoError) : Option GoError :=
  searchLoop ctx (isQualified filter) found store.data

/-- Modelled from the spec: `InMemoryLaptopStore` as a `LaptopStore`. -/
def inMemoryLaptopStore {A Flt : Type} (isValidId : String → Bool) (newUniqueId : String)
    (isQualified : Option Flt → Laptop A → Bool) :
    LaptopStore (InMemoryLaptopStore A) A Flt :=
  { Save := InMemoryLaptopStore.Save isValidId newUniqueId
    Find := InMemoryLaptopStore.Find
    Search := InMemoryLaptopStore.Search isQualified }

/-! ## Closed forms used in the statements -/

/-- The aggregate for an id after the scores `xs` have been added to the aggregate
`o`, in closed form: the count grows by the number of scores, modulo `2 ^ 32`,
and the sum is the left-to-right total. -/
def tally {F : Type} (fadd : F → F → F) : Option (Rating F) → List F → Option (Rating F)
  | o, [] => o
  | none, x :: rest => some { Count := (rest.length + 1) % 2 ^ 32, Sum := rest.foldl fadd x }
  | some r, x :: rest =>
      some { Count := (r.Count + (rest.length + 1)) % 2 ^ 32,
             Sum := (x :: rest).foldl fadd r.Sum }

/-- The bytes of a sequence of messages, chunk after chunk in arrival order. -/
def concatChunks : List UploadImageRequest → List UInt8
  | [] => []
  | req :: reqs => req.GetChunkData ++ concatChunks reqs

/-- The turns of the loop in which the context has no error and `Recv` delivers the
message: one turn per pair of the context state and the message. -/
def deliveredTurns (chunks : List (CtxErr × UploadImageRequest)) :
    List (CtxErr × Except GoError UploadImageRequest) :=
  chunks.map (fun c => (c.1, Except.ok c.2))

/-- The context is live: neither cancelled nor past its deadline. -/
def CtxErr.live (ctx : CtxErr) : Prop :=
  ctx ≠ CtxErr.Canceled ∧ ctx ≠ CtxErr.DeadlineExceeded

/-! ## Fixtures of the examples -/

/-- The canonical text form of a UUID: 36 characters, hyphens at the positions 8,
13, 18 and 23, hexadecimal digits elsewhere. -/
def isCanonicalUUID (s : String) : Bool :=
  s.length == 36 &&
    (s.data.enum.all fun p =>
      if p.1 = 8 ∨ p.1 = 13 ∨ p.1 = 18 ∨ p.1 = 23 then p.2 == '-'
      else p.2.isDigit || ('a' ≤ p.2 && p.2 ≤ 'f') || ('A' ≤ p.2 && p.2 ≤ 'F'))

/-- A uuid package for the examples: `Parse` accepts the canonical form (the forms
with a prefix or with braces are left out) and `NewRandom` returns a fixed id. -/
def exampleUUID : UUID :=
  { Parse := fun s => if isCanonicalUUID s then none else some (GoError.new "invalid UUID format")
    NewRandom := Except.ok "9b2c1f0e-7d6a-4c3b-8a19-5e4d3c2b1a00" }

/-- The id of the laptop of the examples. -/
def exampleId : String := "123e4567-e89b-12d3-a456-426614174000"

/-- The catalog of the examples: laptops without further fields, every laptop
matching every filter. -/
def exampleLaptopStore : LaptopStore (InMemoryLaptopStore Unit) Unit Unit :=
  inMemoryLaptopStore (fun s => (exampleUUID.Parse s).isNone)
    "9b2c1f0e-7d6a-4c3b-8a19-5e4d3c2b1a00" (fun _ _ => true)

/-- A catalog state that holds the laptop of the examples. -/
def exampleCatalog : InMemoryLaptopStore Unit := ⟨[⟨exampleId, ()⟩]⟩

/-- A disk for the examples, on which nothing fails. -/
def exampleDisk : Disk :=
  { NewRandom := Except.ok "5f0c2b9a-1d3e-4f6a-9b8c-7e6d5c4b3a21"
    Create := fun _ => none
    WriteTo := fun _ _ => none }

/-- An upload stream for the examples: the metadata for the laptop of the examples
with the image type `.jpg`, then the given turns; the response is accepted. -/
def exampleUpload (turns : List (CtxErr × Except GoError UploadImageRequest)) :
    UploadImageStream :=
  { first := Except.ok (UploadImageRequest.Info ⟨exampleId, ".jpg"⟩)
    turns := turns
    SendAndClose := fun _ => none }

/-! # Theorems -/

/-! ## Rating store -/

/-- Frame of `Add`: the aggregate of another id is left as it was. -/
theorem Add_rating_of_ne {F : Type} (fadd : F → F → F) (store : InMemoryRatingStore F)
    (a b : String) (score : F) (h : a ≠ b) :
    (store.Add fadd a score).2.rating b = store.rating b := by
  simp [InMemoryRatingStore.Add, Ne.symm h]

/-- After `Add`, the aggregate of the id is the rating that was returned. -/
theorem Add_rating_self {F : Type} (fadd : F → F → F) (store : InMemoryRatingStore F)
    (a : String) (score : F) :
    (store.Add fadd a score).2.rating a = some (store.Add fadd a score).1.1 := by
  simp [InMemoryRatingStore.Add]

/-- One more score on top of a tally. -/
theorem tally_step {F : Type} (fadd : F → F → F) (o : Option (Rating F)) (x : F)
    (ys : List F) (store : InMemoryRatingStore F) (a : String) (ho : store.rating a = o) :
    tally fadd (some (store.Add fadd a x).1.1) ys = tally fadd o (x :: ys) := by
  cases o with
  | none =>
      cases ys with
      | nil => simp [tally, InMemoryRatingStore.Add, ho]
      | cons y ys =>
          simp only [tally, InMemoryRatingStore.Add, ho, List.length_cons, List.foldl_cons]
          congr 2
          omega
  | some r =>
      cases ys with
      | nil => simp [tally, InMemoryRatingStore.Add, ho]
      | cons y ys =>
          simp only [tally, InMemoryRatingStore.Add, ho, List.length_cons, List.foldl_cons]
          congr 2
          omega

/-- The aggregate of an id after a sequence of calls is the tally of the scores
submitted for it. -/
theorem addCalls_rating {F : Type} (fadd : F → F → F) (id : String) :
    ∀ (calls : List (String × F)) (store : InMemoryRatingStore F),
      (addCalls fadd store calls).2.rating id
        = tally fadd (store.rating id) (scoresFor id calls) := by
  intro calls
  induction calls with
  | nil => intro store; simp [addCalls, scoresFor, tally]
  | cons c cs ih =>
      intro store
      obtain ⟨a, x⟩ := c
      simp only [addCalls]
      rw [ih]
      by_cases h : a = id
      · subst h
        have hs : scoresFor a ((a, x) :: cs) = x :: scoresFor a cs := by
          simp [scoresFor]
        rw [hs, Add_rating_self]
        exact tally_step fadd _ x _ store a rfl
      · have hs : scoresFor id ((a, x) :: cs) = scoresFor id cs := by
          simp [scoresFor, h]
        rw [hs, Add_rating_of_ne fadd store a id x h]

/-- The call number `n` returns the aggregate that the store holds right after it. -/
theorem addCalls_getElem {F : Type} (fadd : F → F → F) (id : String) (x : F) :
    ∀ (calls : List (String × F)) (store : InMemoryRatingStore F) (n : Nat),
      calls[n]? = some (id, x) →
      (addCalls fadd store calls).1[n]?
        = ((addCalls fadd store (calls.take (n + 1))).2.rating id).map
            (fun r => (r, none)) := by
  intro calls
  induction calls with
  | nil => intro store n h; simp at h
  | cons c cs ih =>
      intro store n h
      obtain ⟨a, y⟩ := c
      cases n with
      | zero =>
          simp only [List.getElem?_cons_zero, Option.some.injEq, Prod.mk.injEq] at h
          obtain ⟨rfl, rfl⟩ := h
          simp [addCalls, InMemoryRatingStore.Add]
      | succ n =>
          simp only [List.getElem?_cons_succ] at h
          simp only [addCalls, List.getElem?_cons_succ, List.take_succ_cons]
          exact ih _ n h

/-- The call number `n`, made for `id`, returns the tally of the scores submitted
for `id` up to and including that call. -/
theorem addCalls_returns_tally {F : Type} (fadd : F → F → F) (id : String) (x : F)
    (calls : List (String × F)) (store : InMemoryRatingStore F) (n : Nat)
    (h : calls[n]? = some (id, x)) :
    (addCalls fadd store calls).1[n]?
      = (tally fadd (store.rating id) (scoresFor id (calls.take (n + 1)))).map
          (fun r => (r, none)) := by
  rw [addCalls_getElem fadd id x calls store n h, addCalls_rating]

/-- The scores submitted for `id` by calls that are all for `id`. -/
theorem scoresFor_map_self {F : Type} (id : String) (scores : List F) :
    scoresFor id (scores.map (fun s => (id, s))) = scores := by
  induction scores with
  | nil => rfl
  | cons s rest ih =>
      simp only [scoresFor, List.map_cons, List.filter_cons, decide_True, if_true] at ih ⊢
      rw [ih]

/-- The tally of `k + 1` equal scores on a fresh aggregate. -/
theorem tally_replicate {F : Type} (fadd : F → F → F) (k : Nat) (x : F) :
    tally fadd none (List.replicate (k + 1) x)
      = some { Count := (k + 1) % 2 ^ 32, Sum := (List.replicate k x).foldl fadd x } := by
  rw [List.replicate_succ]
  simp only [tally, List.length_replicate]

/-- The last of `k + 1` calls for one id, on a store that is new. -/
theorem addCalls_replicate_last {F : Type} (fadd : F → F → F) (id : String) (k : Nat)
    (x : F) :
    (addCalls fadd (NewInMemoryRatingStore F)
        ((List.replicate (k + 1) x).map (fun s => (id, s)))).1[k]?
      = some ({ Count := (k + 1) % 2 ^ 32, Sum := (List.replicate k x).foldl fadd x },
              none) := by
  have hk : ((List.replicate (k + 1) x).map (fun s => (id, s)))[k]? = some (id, x) := by
    rw [List.getElem?_map, List.getElem?_replicate]
    simp
  rw [addCalls_returns_tally fadd id x _ _ k hk, ← List.map_take, scoresFor_map_self,
    List.take_replicate, Nat.min_self]
  show (tally fadd none (List.replicate (k + 1) x)).map _ = _
  rw [tally_replicate]
  rfl

/-- The last of `k + 1` calls for `a` that follow one call for `b`, on a store
that is new. -/
theorem addCalls_interleaved_last {F : Type} (fadd : F → F → F) (a b : String)
    (hab : b ≠ a) (k : Nat) (x y : F) :
    (addCalls fadd (NewInMemoryRatingStore F)
        ((b, y) :: List.replicate (k + 1) (a, x))).1[k + 1]?
      = some ({ Count := (k + 1) % 2 ^ 32, Sum := (List.replicate k x).foldl fadd x },
              none)
    ∧ ((List.take (k + 1 + 1) ((b, y) :: List.replicate (k + 1) (a, x))).countP
        (fun c => decide (c.1 = a))) = k + 1 := by
  have hk : ((b, y) :: List.replicate (k + 1) (a, x))[k + 1]? = some (a, x) := by
    rw [List.getElem?_cons_succ, List.getElem?_replicate]
    simp
  have htake : List.take (k + 1 + 1) ((b, y) :: List.replicate (k + 1) (a, x))
      = (b, y) :: List.replicate (k + 1) (a, x) := by
    rw [List.take_succ_cons, List.take_replicate, Nat.min_self]
  have hfil : ((b, y) :: List.replicate (k + 1) (a, x)).filter
      (fun c => decide (c.1 = a)) = List.replicate (k + 1) (a, x) := by
    rw [List.filter_cons_of_neg (by simpa using hab)]
    exact List.filter_eq_self.mpr (fun c hc => by
      rw [List.eq_of_mem_replicate hc]; simp)
  refine ⟨?_, ?_⟩
  · rw [addCalls_returns_tally fadd a x _ _ (k + 1) hk, htake]
    have hs : scoresFor a ((b, y) :: List.replicate (k + 1) (a, x))
        = List.replicate (k + 1) x := by
      unfold scoresFor
      rw [hfil, List.map_replicate]
    rw [hs]
    show (tally fadd none (List.replicate (k + 1) x)).map _ = _
    rw [tally_replicate]
    rfl
  · rw [htake, List.countP_eq_length_filter, hfil, List.length_replicate]

/-- C1, amended: for every laptop id and every sequence of `N ≥ 1` scores submitted
with `InMemoryRatingStore.Add` for that id, starting from a store that holds no
aggregate for the id, call number `n + 1` returns a nil error and a `Rating` whose
`Sum` is the left-to-right running total of the first `n + 1` scores and whose
`Count` is `(n + 1) mod 2 ^ 32`, which is `n + 1` as long as `n + 1 < 2 ^ 32`. -/
theorem add_returns_count_and_running_total {F : Type} (fadd : F → F → F)
    (store : InMemoryRatingStore F) (id : String) (scores : List F) (n : Nat)
    (hfresh : store.rating id = none) (hn : n < scores.length) :
    ∃ total, runningTotal fadd (scores.take (n + 1)) = some total ∧
      (addCalls fadd store (scores.map (fun s => (id, s)))).1[n]?
        = some ({ Count := (n + 1) % 2 ^ 32, Sum := total }, none) ∧
      (n + 1 < 2 ^ 32 →
        (addCalls fadd store (scores.map (fun s => (id, s)))).1[n]?
          = some ({ Count := n + 1, Sum := total }, none)) := by
  have hk : (scores.map (fun s => (id, s)))[n]? = some (id, scores[n]) := by
    rw [List.getElem?_map, List.getElem?_eq_getElem hn]
    rfl
  have hret := addCalls_returns_tally fadd id scores[n] _ store n hk
  rw [← List.map_take, scoresFor_map_self, hfresh] at hret
  cases scores with
  | nil => simp at hn
  | cons s rest =>
      have hlen : (List.take n rest).length = n := by
        rw [List.length_take]
        simp only [List.length_cons] at hn
        omega
      refine ⟨(rest.take n).foldl fadd s, ?_, ?_, ?_⟩
      · simp [runningTotal]
      · rw [hret]
        simp only [List.take_succ_cons, tally, hlen, Option.map_some']
      · intro hlt
        rw [hret]
        simp only [List.take_succ_cons, tally, hlen, Option.map_some', Nat.mod_eq_of_lt hlt]

/-- Witness of C1: the scores 3, 4, 5 for one id on a new store; the third call
returns count 3 and sum 12. -/
theorem add_returns_count_and_running_total_witness :
    (NewInMemoryRatingStore Int).rating "A" = none ∧ 2 < [(3 : Int), 4, 5].length ∧
    (addCalls (fun a b => a + b) (NewInMemoryRatingStore Int)
        [("A", (3 : Int)), ("A", 4), ("A", 5)]).1[2]?
      = some ({ Count := 3, Sum := 12 }, none) := by
  refine ⟨rfl, by decide, ?_⟩
  obtain ⟨total, htot, _, h⟩ :=
    add_returns_count_and_running_total (fun a b => a + b) (NewInMemoryRatingStore Int)
      "A" [(3 : Int), 4, 5] 2 rfl (by decide)
  have h12 : total = 12 := by
    simp [runningTotal] at htot
    omega
  subst h12
  exact h (by norm_num)

/-- Counterexample to C1 as stated: `2 ^ 32` scores for one id on a new store; call
number `2 ^ 32` returns `Count = 0`, not `2 ^ 32`. -/
theorem add_count_wraps_after_two_pow_32_calls :
    ∃ r : Rating Int,
      (addCalls (fun a b => a + b) (NewInMemoryRatingStore Int)
          ((List.replicate 4294967296 (0 : Int)).map (fun s => ("A", s)))).1[4294967295]?
        = some (r, none) ∧
      r.Count = 0 ∧ r.Count ≠ 4294967296 :=
  ⟨_, addCalls_replicate_last (fun a b => a + b) "A" 4294967295 (0 : Int),
    by norm_num, by norm_num⟩

/-- The count of a tally on a fresh aggregate is the number of scores, modulo
`2 ^ 32`, once there is a score. -/
theorem tally_none_count {F : Type} (fadd : F → F → F) (xs : List F) (h : 0 < xs.length) :
    ∃ r, tally fadd none xs = some r ∧ r.Count = xs.length % 2 ^ 32 := by
  cases xs with
  | nil => simp at h
  | cons x rest => exact ⟨_, rfl, rfl⟩

/-- The number of scores submitted for an id is the number of calls made for it. -/
theorem scoresFor_length {F : Type} (id : String) (calls : List (String × F)) :
    (scoresFor id calls).length = calls.countP (fun c => decide (c.1 = id)) := by
  rw [scoresFor, List.length_map, List.countP_eq_length_filter]

/-- C8, amended: for every pair of distinct laptop ids `a ≠ b` and every score,
`InMemoryRatingStore.Add(a, score)` leaves the aggregate stored for `b` (its
presence, `Count` and `Sum`) unchanged; hence in any interleaved sequence of `Add`
calls on a new store the `Count` returned for an id equals the number of `Add`
calls made so far for that id alone, modulo `2 ^ 32` (so it equals that number
as long as it is below `2 ^ 32`). -/
theorem add_frame_and_count_per_id {F : Type} (fadd : F → F → F)
    (store : InMemoryRatingStore F) (a b : String) (score : F)
    (calls : List (String × F)) (n : Nat) (id : String) (x : F)
    (hab : a ≠ b) (hcall : calls[n]? = some (id, x)) :
    (store.Add fadd a score).2.rating b = store.rating b ∧
    ∃ r, (addCalls fadd (NewInMemoryRatingStore F) calls).1[n]? = some (r, none) ∧
      r.Count = (calls.take (n + 1)).countP (fun c => decide (c.1 = id)) % 2 ^ 32 ∧
      ((calls.take (n + 1)).countP (fun c => decide (c.1 = id)) < 2 ^ 32 →
        r.Count = (calls.take (n + 1)).countP (fun c => decide (c.1 = id))) := by
  refine ⟨Add_rating_of_ne fadd store a b score hab, ?_⟩
  have hmem : (id, x) ∈ calls.take (n + 1) :=
    List.getElem?_mem (List.getElem?_take_of_succ.trans hcall)
  have hpos : 0 < (scoresFor id (calls.take (n + 1))).length := by
    rw [scoresFor_length]
    exact List.countP_pos_iff.mpr ⟨(id, x), hmem, by simp⟩
  obtain ⟨r, hr, hcount⟩ := tally_none_count fadd _ hpos
  rw [scoresFor_length] at hcount
  refine ⟨r, ?_, hcount, fun hlt => ?_⟩
  · rw [addCalls_returns_tally fadd id x calls _ n hcall]
    show (tally fadd none _).map _ = _
    rw [hr]
    rfl
  · rw [hcount, Nat.mod_eq_of_lt hlt]

/-- Witness of C8: an `Add` for "A" keeps the aggregate of "B", and in the calls
A, B, A the third call, the second one for "A", returns count 2. -/
theorem add_frame_and_count_per_id_witness :
    ("A" : String) ≠ "B" ∧
    ((NewInMemoryRatingStore Int).Add (fun a b => a + b) "B" 7).2.rating "B"
      = some { Count := 1, Sum := 7 } ∧
    ((((NewInMemoryRatingStore Int).Add (fun a b => a + b) "B" 7).2.Add
        (fun a b => a + b) "A" 3).2.rating "B") = some { Count := 1, Sum := 7 } ∧
    ∃ r, (addCalls (fun a b => a + b) (NewInMemoryRatingStore Int)
        [("A", (3 : Int)), ("B", 9), ("A", 4)]).1[2]? = some (r, none) ∧ r.Count = 2 := by
  have h := add_frame_and_count_per_id (fun a b => a + b)
    ((NewInMemoryRatingStore Int).Add (fun a b => a + b) "B" 7).2 "A" "B" (3 : Int)
    [("A", (3 : Int)), ("B", 9), ("A", 4)] 2 "A" 4 (by decide) rfl
  obtain ⟨hframe, r, hr, _, hcount⟩ := h
  refine ⟨by decide, rfl, ?_, r, hr, ?_⟩
  · rw [hframe]
    rfl
  · exact hcount (by decide)

/-- Counterexample to C8 as stated: one call for "B" and then `2 ^ 32` calls for
"A" on a new store; the last call returns `Count = 0` for "A", while `2 ^ 32`
calls have been made for "A". -/
theorem add_count_per_id_wraps :
    ∃ r : Rating Int,
      (addCalls (fun a b => a + b) (NewInMemoryRatingStore Int)
          (("B", (0 : Int)) :: List.replicate 4294967296 ("A", (0 : Int)))).1[4294967296]?
        = some (r, none) ∧
      r.Count = 0 ∧
      (List.take 4294967297
          (("B", (0 : Int)) :: List.replicate 4294967296 ("A", (0 : Int)))).countP
        (fun c => decide (c.1 = "A")) = 4294967296 :=
  ⟨_, (addCalls_interleaved_last (fun a b => a + b) "A" "B" (by decide) 4294967295
        (0 : Int) (0 : Int)).1,
    by norm_num,
    (addCalls_interleaved_last (fun a b => a + b) "A" "B" (by decide) 4294967295
        (0 : Int) (0 : Int)).2⟩

/-! ## `contextErr` and the receiving loop -/

/-- `contextErr` returns nil exactly on a live context. -/
theorem contextErr_eq_none_iff (ctx : CtxErr) : contextErr ctx = none ↔ ctx.live := by
  cases ctx <;> simp [contextErr, CtxErr.live]

/-- A context without error is live. -/
theorem live_none : CtxErr.none.live := ⟨by decide, by decide⟩

/-- While the context is live and the chunks fit under the cap, the loop takes
them in: the buffer grows by their bytes, the size by their length. -/
theorem uploadLoop_delivered :
    ∀ (chunks : List (CtxErr × UploadImageRequest)) (imageData : List UInt8)
      (imageSize n : Nat) (rest : List (CtxErr × Except GoError UploadImageRequest)),
      (∀ c ∈ chunks, c.1.live) →
      imageSize + (concatChunks (chunks.map Prod.snd)).length ≤ maxImageSize →
      uploadLoop imageData imageSize n (deliveredTurns chunks ++ rest)
        = uploadLoop (imageData ++ concatChunks (chunks.map Prod.snd))
            (imageSize + (concatChunks (chunks.map Prod.snd)).length)
            (n + chunks.length) rest := by
  intro chunks
  induction chunks with
  | nil => intro imageData imageSize n rest _ _; simp [deliveredTurns, concatChunks]
  | cons c cs ih =>
      intro imageData imageSize n rest hlive hsize
      obtain ⟨ctx, req⟩ := c
      have hctx : contextErr ctx = none :=
        (contextErr_eq_none_iff ctx).mpr (hlive (ctx, req) (List.mem_cons_self _ _))
      simp only [List.map_cons, concatChunks, List.length_append] at hsize
      have hfit : ¬ imageSize + req.GetChunkData.length > maxImageSize := by omega
      have hrec := ih (imageData ++ req.GetChunkData) (imageSize + req.GetChunkData.length)
        (n + 1) rest (fun c hc => hlive c (List.mem_cons_of_mem _ hc)) (by omega)
      simp only [deliveredTurns] at hrec ⊢
      simp only [List.map_cons, List.cons_append, uploadLoop, hctx, hfit, if_false,
        concatChunks, List.length_append, List.length_cons]
      refine (show _ = _ from hrec).trans ?_
      rw [List.append_assoc]
      congr 1 <;> omega

/-- Once the chunks delivered on a live context outgrow the cap, the loop aborts
with `InvalidArgument`, whatever follows. -/
theorem uploadLoop_too_large :
    ∀ (chunks : List (CtxErr × UploadImageRequest)) (imageData : List UInt8)
      (imageSize n : Nat) (rest : List (CtxErr × Except GoError UploadImageRequest)),
      (∀ c ∈ chunks, c.1.live) →
      imageSize ≤ maxImageSize →
      imageSize + (concatChunks (chunks.map Prod.snd)).length > maxImageSize →
      ∃ err k, uploadLoop imageData imageSize n (deliveredTurns chunks ++ rest)
          = LoopExit.abort err k ∧ err.code = Code.InvalidArgument ∧
        err.format = "image is too large: %d > %d" := by
  intro chunks
  induction chunks with
  | nil =>
      intro imageData imageSize n rest _ hle hgt
      simp [concatChunks] at hgt
      omega
  | cons c cs ih =>
      intro imageData imageSize n rest hlive hle hgt
      obtain ⟨ctx, req⟩ := c
      have hctx : contextErr ctx = none :=
        (contextErr_eq_none_iff ctx).mpr (hlive (ctx, req) (List.mem_cons_self _ _))
      simp only [List.map_cons, concatChunks, List.length_append] at hgt
      by_cases hfit : imageSize + req.GetChunkData.length > maxImageSize
      · refine ⟨statusErrorf Code.InvalidArgument "image is too large: %d > %d"
          [toString (imageSize + req.GetChunkData.length), toString maxImageSize],
          n + 1, ?_, rfl, rfl⟩
        simp only [deliveredTurns, List.map_cons, List.cons_append, uploadLoop, hctx, hfit,
          if_true]
      · obtain ⟨err, k, hk, hcode⟩ := ih (imageData ++ req.GetChunkData)
          (imageSize + req.GetChunkData.length) (n + 1) rest
          (fun c hc => hlive c (List.mem_cons_of_mem _ hc)) (by omega) (by omega)
        refine ⟨err, k, ?_, hcode⟩
        simp only [deliveredTurns] at hk ⊢
        simp only [List.map_cons, List.cons_append, uploadLoop, hctx, hfit, if_false]
        exact (show _ = _ from hk)

/-- What `UploadImage` does once the metadata has arrived and the laptop is found:
it runs the loop on the turns of the stream. -/
theorem UploadImage_of_found {σ A Flt ι : Type} (laptopStore : LaptopStore σ A Flt) (st : σ)
    (imageStore : ImageStore ι) (images : ι) (stream : UploadImageStream)
    (req : UploadImageRequest) (laptop : Laptop A)
    (hfirst : stream.first = Except.ok req)
    (hfound : laptopStore.Find st (UploadInfo.GetLaptopId req.GetInfo) = (some laptop, none))
    (err : Status) (k : Nat)
    (hloop : uploadLoop [] 0 1 stream.turns = LoopExit.abort err k) :
    (UploadImage laptopStore st imageStore images stream).ret = some (some err) ∧
    (UploadImage laptopStore st imageStore images stream).saveCalls = [] ∧
    (UploadImage laptopStore st imageStore images stream).sendCalls = [] ∧
    (UploadImage laptopStore st imageStore images stream).recvCalls = k ∧
    (UploadImage laptopStore st imageStore images stream).imageStore = images := by
  simp [UploadImage, hfirst, hfound, hloop]

/-- The cap in decimal. -/
theorem maxImageSize_eq : maxImageSize = 1048576 := by decide

/-- The laptop of the examples is found in the catalog of the examples. -/
theorem exampleCatalog_find :
    exampleLaptopStore.Find exampleCatalog
        (UploadInfo.GetLaptopId
          (UploadImageRequest.Info ⟨exampleId, ".jpg"⟩).GetInfo)
      = (some ⟨exampleId, ()⟩, none) := by
  decide

/-! ## `UploadImage` -/

/-- C9: in `UploadImage`, whenever the laptop id of the metadata message does not
resolve via the laptop store `Find` (no laptop and no error), the call returns a
status with code `InvalidArgument` after the single `Recv` of the metadata, so
before any chunk is received; the image store `Save` is not invoked, the image
store is as before and no response is sent. -/
theorem uploadImage_unknown_laptop {σ A Flt ι : Type} (laptopStore : LaptopStore σ A Flt)
    (st : σ) (imageStore : ImageStore ι) (images : ι) (stream : UploadImageStream)
    (req : UploadImageRequest)
    (hfirst : stream.first = Except.ok req)
    (hfind : laptopStore.Find st (UploadInfo.GetLaptopId req.GetInfo) = (none, none)) :
    (∃ err, (UploadImage laptopStore st imageStore images stream).ret = some (some err) ∧
      err.code = Code.InvalidArgument) ∧
    (UploadImage laptopStore st imageStore images stream).recvCalls = 1 ∧
    (UploadImage laptopStore st imageStore images stream).saveCalls = [] ∧
    (UploadImage laptopStore st imageStore images stream).sendCalls = [] ∧
    (UploadImage laptopStore st imageStore images stream).imageStore = images := by
  have hrun : UploadImage laptopStore st imageStore images stream
      = ⟨some (logErr (some (statusErrorf Code.InvalidArgument "laptop $s doesnt exist %v"
          [UploadInfo.GetLaptopId req.GetInfo]))), 1, [], [], images⟩ := by
    simp only [UploadImage, hfirst, hfind]
  rw [hrun]
  exact ⟨⟨_, rfl, rfl⟩, rfl, rfl, rfl, rfl⟩

/-- Witness of C9: metadata for a laptop that an empty catalog does not hold,
followed by a chunk and the end of the input. -/
theorem uploadImage_unknown_laptop_witness :
    (∃ err, (UploadImage exampleLaptopStore (NewInMemoryLaptopStore Unit)
        (diskImageStore exampleDisk) (NewDiskImageStore "img")
        (exampleUpload [(CtxErr.none, Except.ok (UploadImageRequest.ChunkData [1, 2, 3])),
          (CtxErr.none, Except.error GoError.EOF)])).ret = some (some err) ∧
      err.code = Code.InvalidArgument) ∧
    (UploadImage exampleLaptopStore (NewInMemoryLaptopStore Unit)
        (diskImageStore exampleDisk) (NewDiskImageStore "img")
        (exampleUpload [(CtxErr.none, Except.ok (UploadImageRequest.ChunkData [1, 2, 3])),
          (CtxErr.none, Except.error GoError.EOF)])).recvCalls = 1 :=
  have h := uploadImage_unknown_laptop exampleLaptopStore (NewInMemoryLaptopStore Unit)
    (diskImageStore exampleDisk) (NewDiskImageStore "img")
    (exampleUpload [(CtxErr.none, Except.ok (UploadImageRequest.ChunkData [1, 2, 3])),
      (CtxErr.none, Except.error GoError.EOF)])
    (UploadImageRequest.Info ⟨exampleId, ".jpg"⟩) rfl rfl
  ⟨h.1, h.2.1⟩

/-- C2, amended: in `UploadImage`, once the metadata has arrived and its laptop is
found, for every sequence of chunks that are delivered on a live context and
whose cumulative byte length exceeds the cap `maxImageSize` (1 MiB), the call
returns a status with code `InvalidArgument`, whatever follows on the stream; the
image store `Save` is not invoked, the image store is as before and no response
is sent. -/
theorem uploadImage_too_large {σ A Flt ι : Type} (laptopStore : LaptopStore σ A Flt)
    (st : σ) (imageStore : ImageStore ι) (images : ι) (stream : UploadImageStream)
    (req : UploadImageRequest) (laptop : Laptop A)
    (chunks : List (CtxErr × UploadImageRequest))
    (rest : List (CtxErr × Except GoError UploadImageRequest))
    (hfirst : stream.first = Except.ok req)
    (hfound : laptopStore.Find st (UploadInfo.GetLaptopId req.GetInfo) = (some laptop, none))
    (hturns : stream.turns = deliveredTurns chunks ++ rest)
    (hlive : ∀ c ∈ chunks, c.1.live)
    (hbig : (concatChunks (chunks.map Prod.snd)).length > maxImageSize) :
    (∃ err, (UploadImage laptopStore st imageStore images stream).ret = some (some err) ∧
      err.code = Code.InvalidArgument) ∧
    (UploadImage laptopStore st imageStore images stream).saveCalls = [] ∧
    (UploadImage laptopStore st imageStore images stream).sendCalls = [] ∧
    (UploadImage laptopStore st imageStore images stream).imageStore = images := by
  obtain ⟨err, k, hk, hcode, _⟩ :=
    uploadLoop_too_large chunks [] 0 1 rest hlive (Nat.zero_le _) (by omega)
  rw [← hturns] at hk
  have h := UploadImage_of_found laptopStore st imageStore images stream req laptop
    hfirst hfound err k hk
  exact ⟨⟨err, h.1, hcode⟩, h.2.1, h.2.2.1, h.2.2.2.2⟩

/-- Witness of C2: three chunks of 512 KiB for the laptop of the examples. -/
theorem uploadImage_too_large_witness :
    (concatChunks [UploadImageRequest.ChunkData (List.replicate 524288 0),
        UploadImageRequest.ChunkData (List.replicate 524288 0),
        UploadImageRequest.ChunkData (List.replicate 524288 0)]).length > maxImageSize ∧
    (∃ err, (UploadImage exampleLaptopStore exampleCatalog (diskImageStore exampleDisk)
        (NewDiskImageStore "img")
        (exampleUpload (deliveredTurns
          [(CtxErr.none, UploadImageRequest.ChunkData (List.replicate 524288 0)),
           (CtxErr.none, UploadImageRequest.ChunkData (List.replicate 524288 0)),
           (CtxErr.none, UploadImageRequest.ChunkData (List.replicate 524288 0))]
          ++ [(CtxErr.none, Except.error GoError.EOF)]))).ret = some (some err) ∧
      err.code = Code.InvalidArgument) ∧
    (UploadImage exampleLaptopStore exampleCatalog (diskImageStore exampleDisk)
        (NewDiskImageStore "img")
        (exampleUpload (deliveredTurns
          [(CtxErr.none, UploadImageRequest.ChunkData (List.replicate 524288 0)),
           (CtxErr.none, UploadImageRequest.ChunkData (List.replicate 524288 0)),
           (CtxErr.none, UploadImageRequest.ChunkData (List.replicate 524288 0))]
          ++ [(CtxErr.none, Except.error GoError.EOF)]))).saveCalls = [] := by
  have key : ∀ data : List UInt8, data.length = 524288 →
      (concatChunks [UploadImageRequest.ChunkData data, UploadImageRequest.ChunkData data,
          UploadImageRequest.ChunkData data]).length > maxImageSize ∧
      (∃ err, (UploadImage exampleLaptopStore exampleCatalog (diskImageStore exampleDisk)
          (NewDiskImageStore "img")
          (exampleUpload (deliveredTurns
            [(CtxErr.none, UploadImageRequest.ChunkData data),
             (CtxErr.none, UploadImageRequest.ChunkData data),
             (CtxErr.none, UploadImageRequest.ChunkData data)]
            ++ [(CtxErr.none, Except.error GoError.EOF)]))).ret = some (some err) ∧
        err.code = Code.InvalidArgument) ∧
      (UploadImage exampleLaptopStore exampleCatalog (diskImageStore exampleDisk)
          (NewDiskImageStore "img")
          (exampleUpload (deliveredTurns
            [(CtxErr.none, UploadImageRequest.ChunkData data),
             (CtxErr.none, UploadImageRequest.ChunkData data),
             (CtxErr.none, UploadImageRequest.ChunkData data)]
            ++ [(CtxErr.none, Except.error GoError.EOF)]))).saveCalls = [] := by
    intro data hlen
    have hbig : (concatChunks [UploadImageRequest.ChunkData data,
        UploadImageRequest.ChunkData data,
        UploadImageRequest.ChunkData data]).length > maxImageSize := by
      simp only [concatChunks, UploadImageRequest.GetChunkData, List.length_append, hlen,
        List.length_nil, maxImageSize_eq]
      decide
    have h := uploadImage_too_large exampleLaptopStore exampleCatalog
      (diskImageStore exampleDisk) (NewDiskImageStore "img")
      (exampleUpload (deliveredTurns
        [(CtxErr.none, UploadImageRequest.ChunkData data),
         (CtxErr.none, UploadImageRequest.ChunkData data),
         (CtxErr.none, UploadImageRequest.ChunkData data)]
        ++ [(CtxErr.none, Except.error GoError.EOF)]))
      (UploadImageRequest.Info ⟨exampleId, ".jpg"⟩) ⟨exampleId, ()⟩
      [(CtxErr.none, UploadImageRequest.ChunkData data),
       (CtxErr.none, UploadImageRequest.ChunkData data),
       (CtxErr.none, UploadImageRequest.ChunkData data)]
      [(CtxErr.none, Except.error GoError.EOF)] rfl exampleCatalog_find rfl
      (by intro c hc
          simp only [List.mem_cons, List.mem_singleton, List.not_mem_nil, or_false] at hc
          rcases hc with rfl | rfl | rfl <;> exact live_none)
      hbig
    exact ⟨hbig, h.1, h.2.1⟩
  exact key (List.replicate 524288 0) (List.length_replicate _ _)

/-- One chunk that is larger than the cap, for the laptop of the examples: the
call returns `InvalidArgument`. -/
theorem uploadImage_one_large_chunk (data : List UInt8) (hbig : data.length > maxImageSize) :
    ∃ err, (UploadImage exampleLaptopStore exampleCatalog (diskImageStore exampleDisk)
        (NewDiskImageStore "img")
        (exampleUpload [(CtxErr.none, Except.ok (UploadImageRequest.ChunkData data))])).ret
        = some (some err) ∧
      err.code = Code.InvalidArgument ∧ err.code ≠ Code.ResourceExhausted := by
  obtain ⟨err, k, hk, hcode, _⟩ :=
    uploadLoop_too_large [(CtxErr.none, UploadImageRequest.ChunkData data)] [] 0 1 []
      (by intro c hc
          simp only [List.mem_singleton] at hc
          subst hc
          exact live_none)
      (Nat.zero_le _)
      (by simpa only [List.map_cons, List.map_nil, concatChunks,
            UploadImageRequest.GetChunkData, List.append_nil, Nat.zero_add] using hbig)
  have h := UploadImage_of_found exampleLaptopStore exampleCatalog
    (diskImageStore exampleDisk) (NewDiskImageStore "img")
    (exampleUpload [(CtxErr.none, Except.ok (UploadImageRequest.ChunkData data))])
    (UploadImageRequest.Info ⟨exampleId, ".jpg"⟩) ⟨exampleId, ()⟩ rfl exampleCatalog_find
    err k hk
  exact ⟨err, h.1, hcode, by rw [hcode]; decide⟩

/-- Counterexample to C2 as stated: one chunk of 1 MiB + 1 byte for the laptop of
the examples; the call returns `InvalidArgument`, not `ResourceExhausted`. -/
theorem uploadImage_too_large_is_not_resource_exhausted :
    (List.replicate 1048577 (0 : UInt8)).length > maxImageSize ∧
    ∃ err, (UploadImage exampleLaptopStore exampleCatalog (diskImageStore exampleDisk)
        (NewDiskImageStore "img")
        (exampleUpload
          [(CtxErr.none,
            Except.ok (UploadImageRequest.ChunkData (List.replicate 1048577 0)))])).ret
        = some (some err) ∧
      err.code = Code.InvalidArgument ∧ err.code ≠ Code.ResourceExhausted :=
  have hbig : (List.replicate 1048577 (0 : UInt8)).length > maxImageSize := by
    rw [List.length_replicate, maxImageSize_eq]
    decide
  ⟨hbig, uploadImage_one_large_chunk _ hbig⟩

/-- The receiving loop on chunks that fit, followed by the end of the input. -/
theorem uploadLoop_done (chunks : List (CtxErr × UploadImageRequest)) (ctxEnd : CtxErr)
    (rest : List (CtxErr × Except GoError UploadImageRequest))
    (hlive : ∀ c ∈ chunks, c.1.live) (hend : ctxEnd.live)
    (hsize : (concatChunks (chunks.map Prod.snd)).length ≤ maxImageSize) :
    uploadLoop [] 0 1 (deliveredTurns chunks ++ (ctxEnd, Except.error GoError.EOF) :: rest)
      = LoopExit.done (concatChunks (chunks.map Prod.snd))
          (concatChunks (chunks.map Prod.snd)).length (chunks.length + 2) := by
  rw [uploadLoop_delivered chunks [] 0 1 _ hlive (by omega)]
  have hctx : contextErr ctxEnd = none := (contextErr_eq_none_iff ctxEnd).mpr hend
  simp only [uploadLoop, hctx, if_true, List.nil_append, Nat.zero_add]
  congr 1
  omega

/-- A successful `DiskImageStore.Save` has recorded the laptop id, the image type
and the path `folder/id+type` under the id it returns. -/
theorem DiskImageStore_Save_records (disk : Disk) (store : DiskImageStore)
    (laptopID imageType : String) (imageData : List UInt8) (id : String)
    (h : (store.Save disk laptopID imageType imageData).1 = Except.ok id) :
    (store.Save disk laptopID imageType imageData).2.images id
      = some { LaptopId := laptopID, Type_ := imageType,
               PAth := store.imageFolder ++ "/" ++ id ++ imageType } := by
  unfold DiskImageStore.Save at h ⊢
  cases hnew : disk.NewRandom with
  | error e => simp [hnew] at h
  | ok imageId =>
      simp only [hnew] at h ⊢
      cases hcreate : disk.Create (store.imageFolder ++ "/" ++ imageId ++ imageType) with
      | some e => simp [hcreate] at h
      | none =>
          simp only [hcreate] at h ⊢
          cases hwrite : disk.WriteTo (store.imageFolder ++ "/" ++ imageId ++ imageType)
              imageData with
          | some e => simp [hwrite] at h
          | none =>
              simp only [hwrite, Except.ok.injEq] at h ⊢
              subst h
              simp

/-- C7: for every upload session whose metadata names a laptop that `Find` returns
and whose chunks, delivered on a live context, have cumulative length
`L ≤ maxImageSize` (`L = maxImageSize` and `L = 0` included), when the end of the
input follows on a live context and the image store `Save` succeeds,
`UploadImage` calls `Save` exactly once, with the laptop id, the image type and
the concatenation of all chunks in arrival order, hands exactly one response to
`SendAndClose`, carrying the id returned by `Save` and `Size = L`, and returns
nil unless `SendAndClose` fails; and a successful `DiskImageStore.Save` has
recorded the laptop id, the image type and the path `folder/id+type` under the id
it returns. -/
theorem uploadImage_success {σ A Flt ι : Type} (laptopStore : LaptopStore σ A Flt)
    (st : σ) (imageStore : ImageStore ι) (images : ι) (stream : UploadImageStream)
    (req : UploadImageRequest) (laptop : Laptop A)
    (chunks : List (CtxErr × UploadImageRequest)) (ctxEnd : CtxErr)
    (rest : List (CtxErr × Except GoError UploadImageRequest)) (imageID : String)
    (hfirst : stream.first = Except.ok req)
    (hfound : laptopStore.Find st (UploadInfo.GetLaptopId req.GetInfo) = (some laptop, none))
    (hturns : stream.turns
      = deliveredTurns chunks ++ (ctxEnd, Except.error GoError.EOF) :: rest)
    (hlive : ∀ c ∈ chunks, c.1.live) (hend : ctxEnd.live)
    (hsize : (concatChunks (chunks.map Prod.snd)).length ≤ maxImageSize)
    (hsave : (imageStore.Save images (UploadInfo.GetLaptopId req.GetInfo)
        (UploadInfo.GetImageType req.GetInfo) (concatChunks (chunks.map Prod.snd))).1
      = Except.ok imageID) :
    (UploadImage laptopStore st imageStore images stream).saveCalls
      = [(UploadInfo.GetLaptopId req.GetInfo, UploadInfo.GetImageType req.GetInfo,
          concatChunks (chunks.map Prod.snd))] ∧
    (UploadImage laptopStore st imageStore images stream).sendCalls
      = [{ Id := imageID, Size := (concatChunks (chunks.map Prod.snd)).length }] ∧
    (UploadImage laptopStore st imageStore images stream).ret
      = some ((stream.SendAndClose
          { Id := imageID, Size := (concatChunks (chunks.map Prod.snd)).length }).map
            (fun err => statusErrorf Code.Unknown "cannot send response: %v" [err.text])) ∧
    (UploadImage laptopStore st imageStore images stream).imageStore
      = (imageStore.Save images (UploadInfo.GetLaptopId req.GetInfo)
          (UploadInfo.GetImageType req.GetInfo) (concatChunks (chunks.map Prod.snd))).2 ∧
    (∀ (disk : Disk) (store : DiskImageStore) (laptopID imageType : String)
        (imageData : List UInt8) (id : String),
      (store.Save disk laptopID imageType imageData).1 = Except.ok id →
      (store.Save disk laptopID imageType imageData).2.images id
        = some { LaptopId := laptopID, Type_ := imageType,
                 PAth := store.imageFolder ++ "/" ++ id ++ imageType }) := by
  have hloop := uploadLoop_done chunks ctxEnd rest hlive hend hsize
  rw [← hturns] at hloop
  have hmod : (concatChunks (chunks.map Prod.snd)).length % 2 ^ 32
      = (concatChunks (chunks.map Prod.snd)).length := by
    rw [maxImageSize_eq] at hsize
    exact Nat.mod_eq_of_lt (by omega)
  refine ⟨?_, ?_, ?_, ?_, DiskImageStore_Save_records⟩
  all_goals
    simp only [UploadImage, hfirst, hfound, hloop, hsave, hmod]
    cases stream.SendAndClose
        { Id := imageID, Size := (concatChunks (chunks.map Prod.snd)).length } <;>
      simp [logErr]

/-- Witness of C7: a 2 KiB upload in two chunks for the laptop of the examples; the
response carries the id given by the disk store and the size 2048, and the store
holds the metadata under that id. -/
theorem uploadImage_success_witness :
    (UploadImage exampleLaptopStore exampleCatalog (diskImageStore exampleDisk)
        (NewDiskImageStore "img")
        (exampleUpload (deliveredTurns
          [(CtxErr.none, UploadImageRequest.ChunkData (List.replicate 1024 0)),
           (CtxErr.none, UploadImageRequest.ChunkData (List.replicate 1024 0))]
          ++ [(CtxErr.none, Except.error GoError.EOF)]))).sendCalls
      = [{ Id := "5f0c2b9a-1d3e-4f6a-9b8c-7e6d5c4b3a21", Size := 2048 }] ∧
    (UploadImage exampleLaptopStore exampleCatalog (diskImageStore exampleDisk)
        (NewDiskImageStore "img")
        (exampleUpload (deliveredTurns
          [(CtxErr.none, UploadImageRequest.ChunkData (List.replicate 1024 0)),
           (CtxErr.none, UploadImageRequest.ChunkData (List.replicate 1024 0))]
          ++ [(CtxErr.none, Except.error GoError.EOF)]))).ret = some none ∧
    (UploadImage exampleLaptopStore exampleCatalog (diskImageStore exampleDisk)
        (NewDiskImageStore "img")
        (exampleUpload (deliveredTurns
          [(CtxErr.none, UploadImageRequest.ChunkData (List.replicate 1024 0)),
           (CtxErr.none, UploadImageRequest.ChunkData (List.replicate 1024 0))]
          ++ [(CtxErr.none, Except.error GoError.EOF)]))).imageStore.images
        "5f0c2b9a-1d3e-4f6a-9b8c-7e6d5c4b3a21"
      = some { LaptopId := exampleId, Type_ := ".jpg",
               PAth := "img/5f0c2b9a-1d3e-4f6a-9b8c-7e6d5c4b3a21.jpg" } := by
  have key : ∀ data : List UInt8, data.length = 1024 →
      (UploadImage exampleLaptopStore exampleCatalog (diskImageStore exampleDisk)
          (NewDiskImageStore "img")
          (exampleUpload (deliveredTurns
            [(CtxErr.none, UploadImageRequest.ChunkData data),
             (CtxErr.none, UploadImageRequest.ChunkData data)]
            ++ [(CtxErr.none, Except.error GoError.EOF)]))).sendCalls
        = [{ Id := "5f0c2b9a-1d3e-4f6a-9b8c-7e6d5c4b3a21", Size := 2048 }] ∧
      (UploadImage exampleLaptopStore exampleCatalog (diskImageStore exampleDisk)
          (NewDiskImageStore "img")
          (exampleUpload (deliveredTurns
            [(CtxErr.none, UploadImageRequest.ChunkData data),
             (CtxErr.none, UploadImageRequest.ChunkData data)]
            ++ [(CtxErr.none, Except.error GoError.EOF)]))).ret = some none ∧
      (UploadImage exampleLaptopStore exampleCatalog (diskImageStore exampleDisk)
          (NewDiskImageStore "img")
          (exampleUpload (deliveredTurns
            [(CtxErr.none, UploadImageRequest.ChunkData data),
             (CtxErr.none, UploadImageRequest.ChunkData data)]
            ++ [(CtxErr.none, Except.error GoError.EOF)]))).imageStore.images
          "5f0c2b9a-1d3e-4f6a-9b8c-7e6d5c4b3a21"
        = some { LaptopId := exampleId, Type_ := ".jpg",
                 PAth := "img/5f0c2b9a-1d3e-4f6a-9b8c-7e6d5c4b3a21.jpg" } := by
    intro data hlen
    have hL : (concatChunks (List.map Prod.snd
        [(CtxErr.none, UploadImageRequest.ChunkData data),
         (CtxErr.none, UploadImageRequest.ChunkData data)])).length = 2048 := by
      simp only [List.map_cons, List.map_nil, concatChunks, UploadImageRequest.GetChunkData,
        List.length_append, hlen, List.length_nil]
    have h := uploadImage_success exampleLaptopStore exampleCatalog
      (diskImageStore exampleDisk) (NewDiskImageStore "img")
      (exampleUpload (deliveredTurns
        [(CtxErr.none, UploadImageRequest.ChunkData data),
         (CtxErr.none, UploadImageRequest.ChunkData data)]
        ++ [(CtxErr.none, Except.error GoError.EOF)]))
      (UploadImageRequest.Info ⟨exampleId, ".jpg"⟩) ⟨exampleId, ()⟩
      [(CtxErr.none, UploadImageRequest.ChunkData data),
       (CtxErr.none, UploadImageRequest.ChunkData data)]
      CtxErr.none [] "5f0c2b9a-1d3e-4f6a-9b8c-7e6d5c4b3a21" rfl exampleCatalog_find rfl
      (by intro c hc
          simp only [List.mem_cons, List.mem_singleton, List.not_mem_nil, or_false] at hc
          rcases hc with rfl | rfl <;> exact live_none)
      live_none
      (by rw [hL, maxImageSize_eq]; decide)
      rfl
    obtain ⟨_, hsend, hret, hstore, hdisk⟩ := h
    rw [hL] at hsend
    refine ⟨hsend, hret, ?_⟩
    rw [hstore]
    exact (hdisk exampleDisk (NewDiskImageStore "img") exampleId ".jpg"
      (concatChunks (List.map Prod.snd
        [(CtxErr.none, UploadImageRequest.ChunkData data),
         (CtxErr.none, UploadImageRequest.ChunkData data)]))
      "5f0c2b9a-1d3e-4f6a-9b8c-7e6d5c4b3a21" rfl).trans (by decide)
  exact key (List.replicate 1024 0) (List.length_replicate _ _)

/-- C4, at the failing input: on a context whose deadline is exceeded `contextErr`
returns a status with code `Canceled` (with the message "deadline is exceeded"),
not `DeadlineExceeded`; the loop of `UploadImage` returns that status at the head
of the turn, before `Recv`; and so does `UploadImage` for the laptop of the
examples when the deadline passes before the first chunk, without a call to the
image store and without a response. -/
theorem contextErr_deadline_exceeded_is_canceled :
    contextErr CtxErr.DeadlineExceeded
      = some { code := Code.Canceled, format := "deadline is exceeded", args := [] } ∧
    (∀ (imageData : List UInt8) (imageSize n : Nat)
        (recv : Except GoError UploadImageRequest)
        (turns : List (CtxErr × Except GoError UploadImageRequest)),
      uploadLoop imageData imageSize n ((CtxErr.DeadlineExceeded, recv) :: turns)
        = LoopExit.abort (statusError Code.Canceled "deadline is exceeded") n) ∧
    (UploadImage exampleLaptopStore exampleCatalog (diskImageStore exampleDisk)
        (NewDiskImageStore "img")
        (exampleUpload
          [(CtxErr.DeadlineExceeded,
            Except.ok (UploadImageRequest.ChunkData [1, 2, 3]))])).ret
      = some (some { code := Code.Canceled, format := "deadline is exceeded", args := [] }) ∧
    (UploadImage exampleLaptopStore exampleCatalog (diskImageStore exampleDisk)
        (NewDiskImageStore "img")
        (exampleUpload
          [(CtxErr.DeadlineExceeded,
            Except.ok (UploadImageRequest.ChunkData [1, 2, 3]))])).saveCalls = [] ∧
    (UploadImage exampleLaptopStore exampleCatalog (diskImageStore exampleDisk)
        (NewDiskImageStore "img")
        (exampleUpload
          [(CtxErr.DeadlineExceeded,
            Except.ok (UploadImageRequest.ChunkData [1, 2, 3]))])).sendCalls = [] ∧
    Code.Canceled ≠ Code.DeadlineExceeded := by
  refine ⟨rfl, fun _ _ _ _ _ => rfl, ?_, ?_, ?_, by decide⟩
  all_goals
    have h := UploadImage_of_found exampleLaptopStore exampleCatalog
      (diskImageStore exampleDisk) (NewDiskImageStore "img")
      (exampleUpload
        [(CtxErr.DeadlineExceeded, Except.ok (UploadImageRequest.ChunkData [1, 2, 3]))])
      (UploadImageRequest.Info ⟨exampleId, ".jpg"⟩) ⟨exampleId, ()⟩ rfl exampleCatalog_find
      (statusError Code.Canceled "deadline is exceeded") 1 rfl
    first
      | exact h.1
      | exact h.2.1
      | exact h.2.2.1

/-! ## `SearchLaptop` -/

/-- The callback that `SearchLaptop` hands to `Search` returns what `Send` returns. -/
theorem searchLaptop_callback {A : Type} (stream : SearchLaptopStream A) :
    (fun laptop : Laptop A =>
        match stream.Send (⟨laptop⟩ : SearchLaptopResponse A) with
        | some err => some err
        | none => none)
      = fun laptop => stream.Send ⟨laptop⟩ := by
  funext laptop
  cases stream.Send ⟨laptop⟩ <;> rfl

/-- C3, amended: in `SearchLaptop`, whenever the store `Search` returns an error,
whether it came from `stream.Send` failing in the per-match callback or from the
cancellation of the context of the call, the call fails with an `Internal` status
that carries the text of the error; it does not report clean completion (nil)
and it does not report a `Canceled` status. -/
theorem searchLaptop_error_is_internal {σ A Flt : Type} (laptopStore : LaptopStore σ A Flt)
    (st : σ) (req : SearchLaptopRequest Flt) (stream : SearchLaptopStream A) (err : GoError)
    (h : laptopStore.Search st stream.Context req.GetFilter
        (fun laptop => stream.Send ⟨laptop⟩) = some err) :
    SearchLaptop laptopStore st req stream
        = some { code := Code.Internal, format := "unexpected error: %v", args := [err.text] } ∧
    SearchLaptop laptopStore st req stream ≠ none ∧
    (∀ s, SearchLaptop laptopStore st req stream = some s → s.code ≠ Code.Canceled) := by
  have hs : SearchLaptop laptopStore st req stream
      = some { code := Code.Internal, format := "unexpected error: %v", args := [err.text] } := by
    simp only [SearchLaptop, searchLaptop_callback, h, statusErrorf]
  refine ⟨hs, by simp [hs], ?_⟩
  intro s hsome
  rw [hs] at hsome
  cases hsome
  exact fun hc => Code.noConfusion hc

/-- Witness of C3: the catalog of the examples on a live context and a stream whose
`Send` fails; the error of `Send` comes back as an `Internal` status. -/
theorem searchLaptop_error_is_internal_witness :
    exampleLaptopStore.Search exampleCatalog CtxErr.none none
        (fun _ => some (GoError.new "transport is closing"))
      = some (GoError.new "transport is closing") ∧
    SearchLaptop exampleLaptopStore exampleCatalog ⟨none⟩
        ⟨CtxErr.none, fun _ => some (GoError.new "transport is closing")⟩
      = some { code := Code.Internal, format := "unexpected error: %v",
               args := ["transport is closing"] } :=
  ⟨rfl,
   (searchLaptop_error_is_internal exampleLaptopStore exampleCatalog ⟨none⟩
      ⟨CtxErr.none, fun _ => some (GoError.new "transport is closing")⟩
      (GoError.new "transport is closing") rfl).1⟩

/-- Counterexample to C3 as stated: the catalog of the examples and a stream whose
context is cancelled; `Search` returns the error of the cancellation and
`SearchLaptop` returns an `Internal` status, not a `Canceled` one. -/
theorem searchLaptop_cancelled_is_internal :
    exampleLaptopStore.Search exampleCatalog CtxErr.Canceled none (fun _ => none)
      = some (GoError.new "context is cancelled") ∧
    SearchLaptop exampleLaptopStore exampleCatalog ⟨none⟩ ⟨CtxErr.Canceled, fun _ => none⟩
      = some { code := Code.Internal, format := "unexpected error: %v",
               args := ["context is cancelled"] } ∧
    Code.Internal ≠ Code.Canceled := by
  decide

/-! ## `CreateLaptop` -/

/-- C10, at the failing input: for a request whose laptop field is missing
(`req.GetLaptop()` is nil), `CreateLaptop` of `laptop_server.go` and of
`laptop_service.go` dereference the nil laptop and panic; they return no
`InvalidArgument` status. The store `Save` is not invoked and the store is as
before. -/
theorem createLaptop_nil_laptop_panics {σ A Flt : Type} (uuid : UUID)
    (laptopStore : LaptopStore σ A Flt) (st : σ) (ctx : CtxErr) :
    (laptop_server.CreateLaptop uuid laptopStore st ctx ⟨none⟩).reply = Reply.panic ∧
    (laptop_service.CreateLaptop uuid laptopStore st ctx ⟨none⟩).reply = Reply.panic ∧
    (laptop_server.CreateLaptop uuid laptopStore st ctx ⟨none⟩).saveCalls = [] ∧
    (laptop_service.CreateLaptop uuid laptopStore st ctx ⟨none⟩).saveCalls = [] ∧
    (laptop_server.CreateLaptop uuid laptopStore st ctx ⟨none⟩).store = st ∧
    (laptop_service.CreateLaptop uuid laptopStore st ctx ⟨none⟩).store = st :=
  ⟨rfl, rfl, rfl, rfl, rfl, rfl⟩

/-- A string of length zero is the empty string. -/
theorem string_length_pos_iff (s : String) : s.length > 0 ↔ s ≠ "" := by
  rw [gt_iff_lt, String.length, List.length_pos]
  constructor
  · intro h hs
    exact h (by rw [hs])
  · intro h hs
    exact h (String.ext hs)

/-- The id step on a non-empty id that does not parse: `InvalidArgument`. -/
theorem settleId_invalid {A : Type} (verb : String) (uuid : UUID) (laptop : Laptop A)
    (err : GoError) (hne : laptop.Id ≠ "") (hbad : uuid.Parse laptop.Id = some err) :
    settleId verb uuid laptop
      = Except.error (statusErrorf Code.InvalidArgument
          ("laptop id isn\x27t a valid UUID: " ++ verb) [err.text]) := by
  have hpos : laptop.Id.length > 0 := (string_length_pos_iff _).mpr hne
  simp [settleId, hpos, hbad]

/-- The id step on a non-empty id that parses: the laptop as it is. -/
theorem settleId_valid {A : Type} (verb : String) (uuid : UUID) (laptop : Laptop A)
    (hne : laptop.Id ≠ "") (hok : uuid.Parse laptop.Id = none) :
    settleId verb uuid laptop = Except.ok laptop := by
  have hpos : laptop.Id.length > 0 := (string_length_pos_iff _).mpr hne
  simp [settleId, hpos, hok]

/-- The id step on an empty id: the outcome of `uuid.NewRandom`. -/
theorem settleId_empty {A : Type} (verb : String) (uuid : UUID) (laptop : Laptop A)
    (he : laptop.Id = "") :
    settleId verb uuid laptop
      = match uuid.NewRandom with
        | Except.error err =>
            Except.error
              (statusErrorf Code.Internal ("cannot generate new laptop ID: " ++ verb)
                [err.text])
        | Except.ok id => Except.ok { laptop with Id := id } := by
  have hpos : ¬ laptop.Id.length > 0 := by
    rw [string_length_pos_iff]
    simp [he]
  simp [settleId, hpos]

/-- For a laptop whose non-empty id does not parse as a UUID, both versions of `CreateLaptop` return `InvalidArgument`, do not invoke
`Save` and leave the store as it was. -/
theorem createLaptop_invalid_id {σ A Flt : Type} (uuid : UUID)
    (laptopStore : LaptopStore σ A Flt) (st : σ) (ctx : CtxErr) (laptop : Laptop A)
    (err : GoError) (hne : laptop.Id ≠ "") (hbad : uuid.Parse laptop.Id = some err) :
    (∃ s, (laptop_server.CreateLaptop uuid laptopStore st ctx ⟨some laptop⟩).reply
        = Reply.error s ∧ s.code = Code.InvalidArgument) ∧
    (∃ s, (laptop_service.CreateLaptop uuid laptopStore st ctx ⟨some laptop⟩).reply
        = Reply.error s ∧ s.code = Code.InvalidArgument) ∧
    (laptop_server.CreateLaptop uuid laptopStore st ctx ⟨some laptop⟩).saveCalls = [] ∧
    (laptop_service.CreateLaptop uuid laptopStore st ctx ⟨some laptop⟩).saveCalls = [] ∧
    (laptop_server.CreateLaptop uuid laptopStore st ctx ⟨some laptop⟩).store = st ∧
    (laptop_service.CreateLaptop uuid laptopStore st ctx ⟨some laptop⟩).store = st := by
  simp [laptop_server.CreateLaptop, laptop_service.CreateLaptop,
    CreateLaptopRequest.GetLaptop, settleId_invalid _ uuid laptop err hne hbad, statusErrorf]

/-- What the last part of `CreateLaptop` does with the result of `Save`. -/
theorem saveLaptop_spec {σ A Flt : Type} (verb : String) (laptopStore : LaptopStore σ A Flt)
    (st : σ) (laptop : Laptop A) :
    (saveLaptop verb laptopStore st laptop).saveCalls = [laptop] ∧
    (saveLaptop verb laptopStore st laptop).store = (laptopStore.Save st laptop).2 ∧
    (∀ err, (laptopStore.Save st laptop).1 = some err →
      errorsIs err GoError.ErrAlreadyExists = true →
      ∃ s, (saveLaptop verb laptopStore st laptop).reply = Reply.error s ∧
        s.code = Code.AlreadyExists) ∧
    (∀ err, (laptopStore.Save st laptop).1 = some err →
      errorsIs err GoError.ErrAlreadyExists = false →
      ∃ s, (saveLaptop verb laptopStore st laptop).reply = Reply.error s ∧
        s.code = Code.Internal) ∧
    ((laptopStore.Save st laptop).1 = none →
      (saveLaptop verb laptopStore st laptop).reply = Reply.ok ⟨laptop.Id⟩) := by
  unfold saveLaptop
  cases hsave : (laptopStore.Save st laptop).1 with
  | none => simp [hsave]
  | some e =>
      cases his : errorsIs e GoError.ErrAlreadyExists <;> simp [hsave, his, statusErrorf]

/-- Both versions of `CreateLaptop` on a live context: the id step, then the save. -/
theorem createLaptop_live {σ A Flt : Type} (uuid : UUID) (laptopStore : LaptopStore σ A Flt)
    (st : σ) (ctx : CtxErr) (laptop : Laptop A) (r : CreateLaptopResult σ A)
    (hr : (r = laptop_server.CreateLaptop uuid laptopStore st ctx ⟨some laptop⟩ ∧ ctx.live) ∨
      r = laptop_service.CreateLaptop uuid laptopStore st ctx ⟨some laptop⟩) :
    ∃ verb, r = match settleId verb uuid laptop with
      | Except.error err => ⟨Reply.error err, st, []⟩
      | Except.ok settled => saveLaptop verb laptopStore st settled := by
  rcases hr with ⟨hr, hlive⟩ | hr
  · refine ⟨"%v", ?_⟩
    have hctx : contextErr ctx = none := (contextErr_eq_none_iff ctx).mpr hlive
    rw [hr]
    simp only [laptop_server.CreateLaptop, CreateLaptopRequest.GetLaptop, hctx]
  · exact ⟨"%w", by rw [hr]; rfl⟩

/-- C5: for every `CreateLaptop` request (of `laptop_server.go` with a live
context, of `laptop_service.go` with any context) and a laptop whose id is empty
or parses as a UUID, `Save` is invoked exactly once, with the laptop as sent when
its id is not empty and with the new random id in place of an empty one, unless
the id is empty and `uuid.NewRandom` fails; and then: if `Save` returns an error
that is or wraps `ErrAlreadyExists` the call fails with status `AlreadyExists`; if
`Save` returns any other error the call fails with status `Internal`; and if
`Save` succeeds the call returns a response whose `Id` is the id that was passed
to `Save`. -/
theorem createLaptop_maps_save_result {σ A Flt : Type} (uuid : UUID)
    (laptopStore : LaptopStore σ A Flt) (st : σ) (ctx : CtxErr) (laptop : Laptop A)
    (r : CreateLaptopResult σ A)
    (hr : (r = laptop_server.CreateLaptop uuid laptopStore st ctx ⟨some laptop⟩ ∧ ctx.live) ∨
      r = laptop_service.CreateLaptop uuid laptopStore st ctx ⟨some laptop⟩)
    (hid : laptop.Id = "" ∨ uuid.Parse laptop.Id = none) :
    (laptop.Id = "" ∧ (∃ e, uuid.NewRandom = Except.error e) ∧ r.saveCalls = [] ∧
      ∃ s, r.reply = Reply.error s ∧ s.code = Code.Internal) ∨
    ∃ saved, r.saveCalls = [saved] ∧
      (laptop.Id ≠ "" → saved = laptop) ∧
      (laptop.Id = "" → ∃ id, uuid.NewRandom = Except.ok id ∧ saved = { laptop with Id := id }) ∧
      r.store = (laptopStore.Save st saved).2 ∧
      (∀ err, (laptopStore.Save st saved).1 = some err →
        errorsIs err GoError.ErrAlreadyExists = true →
        ∃ s, r.reply = Reply.error s ∧ s.code = Code.AlreadyExists) ∧
      (∀ err, (laptopStore.Save st saved).1 = some err →
        errorsIs err GoError.ErrAlreadyExists = false →
        ∃ s, r.reply = Reply.error s ∧ s.code = Code.Internal) ∧
      ((laptopStore.Save st saved).1 = none → r.reply = Reply.ok ⟨saved.Id⟩) := by
  obtain ⟨verb, hshape⟩ := createLaptop_live uuid laptopStore st ctx laptop r hr
  by_cases he : laptop.Id = ""
  · rw [settleId_empty verb uuid laptop he] at hshape
    cases hnew : uuid.NewRandom with
    | error e =>
        left
        rw [hnew] at hshape
        exact ⟨he, ⟨e, rfl⟩, by rw [hshape], _, by rw [hshape], rfl⟩
    | ok id =>
        right
        rw [hnew] at hshape
        obtain ⟨h1, h2, h3, h4, h5⟩ :=
          saveLaptop_spec verb laptopStore st { laptop with Id := id }
        refine ⟨{ laptop with Id := id }, ?_, fun hne => absurd he hne,
          fun _ => ⟨id, rfl, rfl⟩, ?_, ?_, ?_, ?_⟩ <;> rw [hshape]
        · exact h1
        · exact h2
        · exact h3
        · exact h4
        · exact h5
  · right
    have hok : uuid.Parse laptop.Id = none := hid.resolve_left he
    rw [settleId_valid verb uuid laptop he hok] at hshape
    obtain ⟨h1, h2, h3, h4, h5⟩ := saveLaptop_spec verb laptopStore st laptop
    refine ⟨laptop, ?_, fun _ => rfl, fun h => absurd h he, ?_, ?_, ?_, ?_⟩ <;> rw [hshape]
    · exact h1
    · exact h2
    · exact h3
    · exact h4
    · exact h5

/-- Witness of C5: the laptop of the examples sent again to the catalog that holds
it, on a live context: `Save` returns `ErrAlreadyExists` and the call fails with
`AlreadyExists`. -/
theorem createLaptop_maps_save_result_witness :
    CtxErr.none.live ∧ exampleUUID.Parse exampleId = none ∧
    (exampleLaptopStore.Save exampleCatalog ⟨exampleId, ()⟩).1
      = some GoError.ErrAlreadyExists ∧
    ∃ s, (laptop_server.CreateLaptop exampleUUID exampleLaptopStore exampleCatalog
        CtxErr.none ⟨some ⟨exampleId, ()⟩⟩).reply = Reply.error s ∧
      s.code = Code.AlreadyExists := by
  have hparse : exampleUUID.Parse exampleId = none := by decide
  have hsave : (exampleLaptopStore.Save exampleCatalog ⟨exampleId, ()⟩).1
      = some GoError.ErrAlreadyExists := by decide
  have hne : (⟨exampleId, ()⟩ : Laptop Unit).Id ≠ "" := by decide
  refine ⟨live_none, hparse, hsave, ?_⟩
  rcases createLaptop_maps_save_result exampleUUID exampleLaptopStore exampleCatalog
      CtxErr.none ⟨exampleId, ()⟩ _ (Or.inl ⟨rfl, live_none⟩) (Or.inr hparse) with
    h | ⟨saved, _, hsaved, _, _, hdup, _, _⟩
  · exact absurd h.1 hne
  · rw [hsaved hne] at hdup
    exact hdup _ hsave (by decide)

/-- Saving a laptop with a valid id that the catalog does not hold succeeds, and
the catalog then finds the laptop as it was saved. -/
theorem InMemoryLaptopStore_Save_fresh {A : Type} (isValidId : String → Bool)
    (newUniqueId : String) (store : InMemoryLaptopStore A) (laptop : Laptop A)
    (hne : laptop.Id ≠ "") (hvalid : isValidId laptop.Id = true)
    (hfresh : (store.Find laptop.Id).1 = none) :
    (store.Save isValidId newUniqueId laptop).1 = none ∧
    (store.Save isValidId newUniqueId laptop).2.Find laptop.Id = (some laptop, none) := by
  have hfind : List.find? (fun l : Laptop A => decide (l.Id = laptop.Id)) store.data = none :=
    hfresh
  simp [InMemoryLaptopStore.Save, InMemoryLaptopStore.Find, hne, hvalid, hfind]

/-- C6, amended: for every laptop carrying a non-empty, syntactically valid UUID id
that is not yet in the store, `CreateLaptop` (of `laptop_service.go`, and of
`laptop_server.go` when the context of the call is live) succeeds, the response
id equals the id the caller supplied, `Save` has been given the laptop as sent,
and a subsequent `Find` of that id on the store returns a laptop equal in every
field to the one sent. -/
theorem createLaptop_keeps_valid_id {A Flt : Type} (uuid : UUID) (newUniqueId : String)
    (isQualified : Option Flt → Laptop A → Bool) (st : InMemoryLaptopStore A)
    (ctx : CtxErr) (laptop : Laptop A) (r : CreateLaptopResult (InMemoryLaptopStore A) A)
    (hr : (r = laptop_server.CreateLaptop uuid
          (inMemoryLaptopStore (fun s => (uuid.Parse s).isNone) newUniqueId isQualified)
          st ctx ⟨some laptop⟩ ∧ ctx.live) ∨
      r = laptop_service.CreateLaptop uuid
          (inMemoryLaptopStore (fun s => (uuid.Parse s).isNone) newUniqueId isQualified)
          st ctx ⟨some laptop⟩)
    (hne : laptop.Id ≠ "") (hvalid : uuid.Parse laptop.Id = none)
    (hfresh : (st.Find laptop.Id).1 = none) :
    r.reply = Reply.ok ⟨laptop.Id⟩ ∧ r.saveCalls = [laptop] ∧
    r.store.Find laptop.Id = (some laptop, none) := by
  obtain ⟨verb, hshape⟩ := createLaptop_live uuid _ st ctx laptop r hr
  rw [settleId_valid verb uuid laptop hne hvalid] at hshape
  obtain ⟨hsave, hfind⟩ := InMemoryLaptopStore_Save_fresh (fun s => (uuid.Parse s).isNone)
    newUniqueId st laptop hne (by simp [hvalid]) hfresh
  obtain ⟨h1, h2, _, _, h5⟩ := saveLaptop_spec verb
    (inMemoryLaptopStore (fun s => (uuid.Parse s).isNone) newUniqueId isQualified) st laptop
  rw [hshape]
  refine ⟨h5 hsave, h1, ?_⟩
  rw [h2]
  exact hfind

/-- Witness of C6: the laptop of the examples sent to an empty catalog, through
`laptop_service.go` and, on a live context, through `laptop_server.go`. -/
theorem createLaptop_keeps_valid_id_witness :
    exampleId ≠ "" ∧ exampleUUID.Parse exampleId = none ∧
    ((NewInMemoryLaptopStore Unit).Find exampleId).1 = none ∧
    (laptop_service.CreateLaptop exampleUUID exampleLaptopStore (NewInMemoryLaptopStore Unit)
        CtxErr.Canceled ⟨some ⟨exampleId, ()⟩⟩).reply = Reply.ok ⟨exampleId⟩ ∧
    (laptop_server.CreateLaptop exampleUUID exampleLaptopStore (NewInMemoryLaptopStore Unit)
        CtxErr.none ⟨some ⟨exampleId, ()⟩⟩).reply = Reply.ok ⟨exampleId⟩ ∧
    (laptop_server.CreateLaptop exampleUUID exampleLaptopStore (NewInMemoryLaptopStore Unit)
        CtxErr.none ⟨some ⟨exampleId, ()⟩⟩).store.Find exampleId
      = (some ⟨exampleId, ()⟩, none) := by
  have hne : exampleId ≠ "" := by decide
  have hparse : exampleUUID.Parse exampleId = none := by decide
  have h1 := createLaptop_keeps_valid_id exampleUUID "9b2c1f0e-7d6a-4c3b-8a19-5e4d3c2b1a00"
    (fun (_ : Option Unit) (_ : Laptop Unit) => true) (NewInMemoryLaptopStore Unit)
    CtxErr.Canceled ⟨exampleId, ()⟩ _ (Or.inr rfl) hne hparse rfl
  have h2 := createLaptop_keeps_valid_id exampleUUID "9b2c1f0e-7d6a-4c3b-8a19-5e4d3c2b1a00"
    (fun (_ : Option Unit) (_ : Laptop Unit) => true) (NewInMemoryLaptopStore Unit)
    CtxErr.none ⟨exampleId, ()⟩ _ (Or.inl ⟨rfl, live_none⟩) hne hparse rfl
  exact ⟨hne, hparse, rfl, h1.1, h2.1, h2.2.2⟩

/-- Counterexample to C6 as stated: the laptop of the examples, whose id is a valid
UUID that an empty catalog does not hold, sent through `laptop_server.go` on a
cancelled context: the call fails with `Canceled`, `Save` is not invoked and a
subsequent `Find` of the id returns no laptop. -/
theorem createLaptop_cancelled_fails :
    exampleId ≠ "" ∧ exampleUUID.Parse exampleId = none ∧
    ((NewInMemoryLaptopStore Unit).Find exampleId).1 = none ∧
    (laptop_server.CreateLaptop exampleUUID exampleLaptopStore (NewInMemoryLaptopStore Unit)
        CtxErr.Canceled ⟨some ⟨exampleId, ()⟩⟩).reply
      = Reply.error { code := Code.Canceled, format := "request is cancleled", args := [] } ∧
    (laptop_server.CreateLaptop exampleUUID exampleLaptopStore (NewInMemoryLaptopStore Unit)
        CtxErr.Canceled ⟨some ⟨exampleId, ()⟩⟩).saveCalls = [] ∧
    (laptop_server.CreateLaptop exampleUUID exampleLaptopStore (NewInMemoryLaptopStore Unit)
        CtxErr.Canceled ⟨some ⟨exampleId, ()⟩⟩).store.Find exampleId = (none, none) := by
  decide

end pcbook
